import Mathlib

/-!
Verification development for the Satsiber data-center drawing generators
(`generate_dxf.py` and `generate_pdf.py`).

The two renderers are embedded shallowly:

* the DXF renderer (`generate_dxf.py`) works over an `ezdxf` modelspace that is
  an append-only container of entities; every helper of the source is embedded
  as a function `List DxfEntity → … → List DxfEntity` that appends the entities
  the Python helper adds, in order, with their literal attributes.  All DXF
  coordinates in the source are rationals, so the model uses `ℚ` and is fully
  computable.

* the PDF renderer (`generate_pdf.py`) works over a `reportlab` canvas whose
  graphics state (stroke colour, fill colour, line width, dash pattern, font)
  persists between calls and is applied to every shape at draw time; the model
  is an explicit `Canvas` record threaded through every helper.  Coordinates
  use `ℝ` because the arrow helper computes its head with `atan2`/`cos`/`sin`.

Colours are represented by the literal with which the source constructs them
(an AutoCAD colour index `ℤ` on the DXF side, a hex / named-colour string on
the PDF side).
-/

namespace Dxf

/-- Text alignment values of `ezdxf.enums.TextEntityAlignment` used by the
source; `default` stands for a `set_placement` call without an `align`
argument (left/baseline placement). -/
inductive TextAlign where
  | default
  | middleCenter
  | middleLeft
  | middleRight
  deriving DecidableEq, Repr

/-- A DXF modelspace entity as added by the source: `add_lwpolyline`,
`add_line`, `add_circle` or `add_text`, with the attributes the source passes
in `dxfattribs` (`lineweight` and `linetype` are `none` when omitted, `style`
is `none` when no text style is named). -/
inductive DxfEntity where
  | lwpolyline (pts : List (ℚ × ℚ)) (color : ℤ) (lineweight : Option ℤ)
      (linetype : Option String)
  | line (p1 p2 : ℚ × ℚ) (color : ℤ) (lineweight : Option ℤ)
      (linetype : Option String)
  | circle (center : ℚ × ℚ) (radius : ℚ) (color : ℤ) (lineweight : Option ℤ)
  | text (content : String) (height : ℚ) (color : ℤ) (style : Option String)
      (pos : ℚ × ℚ) (align : TextAlign)
  deriving DecidableEq, Repr

/-- AutoCAD color index constants of `generate_dxf.py` lines 21-33. -/
def WHITE : ℤ := 7

def RED : ℤ := 1

def YELLOW : ℤ := 2

def GREEN : ℤ := 3

def CYAN : ℤ := 4

def BLUE : ℤ := 5

def MAGENTA : ℤ := 6

def GRAY : ℤ := 8

/-- `add_title_block(msp, dwg_no, title_line1, title_line2, standard, x_off,
y_off)` of `generate_dxf.py` lines 36-114: the standard title block, emitted
entity by entity in source order. -/
def add_title_block (msp : List DxfEntity) (x_off y_off : ℚ)
    (dwg_no title_line1 title_line2 standard : String) : List DxfEntity :=
  let bx := x_off
  let by' := y_off
  msp ++
    [ .lwpolyline [(bx, by'), (bx + 570, by'), (bx + 570, by' + 140),
        (bx, by' + 140), (bx, by')] WHITE (some 50) none,
      .text "SATSIBER" 18 WHITE (some "TITLE") (bx + 100, by' + 115)
        .middleCenter,
      .text "DATA CENTER FACILITY" 6 GRAY none (bx + 100, by' + 95)
        .middleCenter,
      .line (bx + 200, by') (bx + 200, by' + 140) WHITE none none,
      .text "DRAWING TITLE:" 4 GRAY none (bx + 210, by' + 125) .default,
      .text title_line1 8 WHITE (some "TITLE") (bx + 210, by' + 112) .default,
      .text title_line2 7 WHITE none (bx + 210, by' + 100) .default,
      .line (bx + 200, by' + 90) (bx + 570, by' + 90) WHITE none none,
      .text ("DWG NO: " ++ dwg_no) 6 WHITE none (bx + 210, by' + 75) .default,
      .text "REV: A" 6 WHITE none (bx + 380, by' + 75) .default,
      .text "DATE: 2026-02-27" 6 WHITE none (bx + 450, by' + 75) .default,
      .line (bx + 200, by' + 65) (bx + 570, by' + 65) WHITE none none,
      .text "SCALE: NTS" 5 WHITE none (bx + 210, by' + 50) .default,
      .text ("STD: " ++ standard) 5 WHITE none (bx + 350, by' + 50) .default,
      .line (bx + 200, by' + 40) (bx + 570, by' + 40) WHITE none none,
      .text "UPTIME TIER III" 7 RED (some "TITLE") (bx + 210, by' + 20)
        .default,
      .line (bx, by' + 90) (bx + 200, by' + 90) WHITE none none,
      .text "DESIGNED: SATSIBER ENGINEERING" 5 WHITE none (bx + 10, by' + 70)
        .default,
      .line (bx, by' + 60) (bx + 200, by' + 60) WHITE none none,
      .text "CHECKED: ___________" 5 GRAY none (bx + 10, by' + 42) .default,
      .line (bx, by' + 30) (bx + 200, by' + 30) WHITE none none,
      .text "APPROVED: ___________" 5 GRAY none (bx + 10, by' + 14) .default ]

/-- `add_border(msp, width, height)` of `generate_dxf.py` lines 117-126 (the
Python defaults are `width=1180, height=840`): outer frame polyline with
lineweight 70, then the inner frame, inset by 5, with lineweight 18. -/
def add_border (msp : List DxfEntity) (width height : ℚ) : List DxfEntity :=
  msp ++
    [ .lwpolyline [(0, 0), (width, 0), (width, height), (0, height), (0, 0)]
        WHITE (some 70) none,
      .lwpolyline [(5, 5), (width - 5, 5), (width - 5, height - 5),
        (5, height - 5), (5, 5)] WHITE (some 18) none ]

/-- `add_room_box(msp, x, y, w, h, label, ref, color, fill_pattern)` of
`generate_dxf.py` lines 129-141.  The Python `fill_pattern` parameter is
unused by the body and is omitted here.  No input validation is performed by
the source: the three entities are emitted for every `w`, `h`. -/
def add_room_box (msp : List DxfEntity) (x y w h : ℚ) (label ref : String)
    (color : ℤ) : List DxfEntity :=
  msp ++
    [ .lwpolyline [(x, y), (x + w, y), (x + w, y + h), (x, y + h), (x, y)]
        color (some 35) none,
      .text label 6 color (some "TITLE") (x + w / 2, y + h - 10) .middleCenter,
      .text ref 4 RED none (x + w - 5, y + h - 5) .middleRight ]

/-- `add_equipment(msp, x, y, w, h, label, tag, color, dashed)` of
`generate_dxf.py` lines 144-156. -/
def add_equipment (msp : List DxfEntity) (x y w h : ℚ) (label tag : String)
    (color : ℤ) (dashed : Bool) : List DxfEntity :=
  msp ++
    [ .lwpolyline [(x, y), (x + w, y), (x + w, y + h), (x, y + h), (x, y)]
        color (some 25) (if dashed then some "DASHED" else none),
      .text label 4 color none (x + w / 2, y + h / 2 + 2) .middleCenter,
      .text tag 3 color none (x + w / 2, y + h / 2 - 4) .middleCenter ]

/-- `add_bus_bar(msp, x, y, length, label, color, horizontal)` of
`generate_dxf.py` lines 159-174: a horizontal bar is a lineweight-70 polyline
plus a centered label 8 below the bar; the vertical branch emits only the
lineweight-70 polyline and ignores `label`. -/
def add_bus_bar (msp : List DxfEntity) (x y length : ℚ) (label : String)
    (color : ℤ) (horizontal : Bool) : List DxfEntity :=
  if horizontal then
    msp ++
      [ .lwpolyline [(x, y), (x + length, y)] color (some 70) none,
        .text label 4 color none (x + length / 2, y - 8) .middleCenter ]
  else
    msp ++ [ .lwpolyline [(x, y), (x, y + length)] color (some 70) none ]

/-- `add_generator_symbol(msp, cx, cy, radius, label, tag, color)` of
`generate_dxf.py` lines 176-187. -/
def add_generator_symbol (msp : List DxfEntity) (cx cy radius : ℚ)
    (label tag : String) (color : ℤ) : List DxfEntity :=
  msp ++
    [ .circle (cx, cy) radius color (some 35),
      .text "G" (radius * 1.2) color (some "TITLE") (cx, cy) .middleCenter,
      .text label 3.5 color none (cx, cy - radius - 6) .middleCenter,
      .text tag 3 CYAN none (cx, cy - radius - 12) .middleCenter ]

/-- `add_transformer_symbol(msp, cx, cy, radius, label, color)` of
`generate_dxf.py` lines 190-196. -/
def add_transformer_symbol (msp : List DxfEntity) (cx cy radius : ℚ)
    (label : String) (color : ℤ) : List DxfEntity :=
  msp ++
    [ .circle (cx, cy + radius * 0.4) radius color (some 35),
      .circle (cx, cy - radius * 0.4) radius color (some 35),
      .text label 3.5 color none (cx + radius + 5, cy) .middleLeft ]

/-- `add_cb_symbol(msp, x, y, label, color)` of `generate_dxf.py` lines
199-209 (`s = 4`). -/
def add_cb_symbol (msp : List DxfEntity) (x y : ℚ) (label : String)
    (color : ℤ) : List DxfEntity :=
  msp ++
    [ .lwpolyline [(x - 4, y - 2), (x + 4, y - 2), (x + 4, y + 2),
        (x - 4, y + 2), (x - 4, y - 2)] color (some 18) none,
      .text label 2.5 color none (x, y) .middleCenter ]

/-- The vertical position of the `i`-th floor-plan legend entry,
`y = ly - 15 - i * 12` (`generate_dxf.py` line 402). -/
def legendY (ly : ℚ) (i : ℕ) : ℚ := ly - 15 - (i : ℚ) * 12

/-- The floor-plan legend loop of `generate_dxf.py` lines 401-407: for each
`(i, (color, text))` of the enumerated item list, a 10 x 6 swatch polyline at
`(lx, legendY ly i)` and the label text at `(lx + 15, legendY ly i + 3)`. -/
def floor_plan_legend (lx ly : ℚ) (legend_items : List (ℤ × String)) :
    List DxfEntity :=
  legend_items.enum.flatMap fun p =>
    [ .lwpolyline [(lx, legendY ly p.1), (lx + 10, legendY ly p.1),
        (lx + 10, legendY ly p.1 + 6), (lx, legendY ly p.1 + 6),
        (lx, legendY ly p.1)] p.2.1 none none,
      .text p.2.2 4 WHITE none (lx + 15, legendY ly p.1 + 3) .default ]

/-- The literal legend item list of `generate_floor_plan`
(`generate_dxf.py` lines 395-400). -/
def floor_plan_legend_items : List (ℤ × String) :=
  [ (CYAN, "Data Hall"), (YELLOW, "UPS / Power Room"),
    (GREEN, "Generator Yard"), (BLUE, "NOC / Operations"),
    (MAGENTA, "Meet-Me Room / Electrical"), (RED, "Fire Control"),
    (GRAY, "Support / Non-Critical") ]

/-- The lineweights used for ordinary wiring / connection lines by the
`msp.add_line` calls of the composers (`generate_dxf.py` lines 457-528,
605-678, 753-925): 13, 18, 25 and 35. -/
def wiring_lineweights : List ℤ := [13, 18, 25, 35]

/-- Arguments of one `add_title_block` call: drawing number, the two title
lines, and the referenced standard. -/
structure TitleBlockArgs where
  dwg_no : String
  title_line1 : String
  title_line2 : String
  standard : String
  deriving DecidableEq, Repr

/-- The five DXF sheets: output filename (from the `doc.saveas` call of each
composer, `generate_dxf.py` lines 409, 576, 712, 854, 990) paired with the
arguments that composer passes to `add_title_block` (lines 245-249, 423-427,
590-594, 726-730, 868-872; all five calls use `x_off=600, y_off=10`). -/
def dxf_sheets : List (String × TitleBlockArgs) :=
  [ ("SAT-DC-FP-001_Floor-Plan.dxf",
      ⟨"SAT-DC-FP-001", "DATA CENTER FLOOR PLAN", "GENERAL ARRANGEMENT",
        "UPTIME TIER III"⟩),
    ("SAT-DC-EL-001_Electrical-SLD.dxf",
      ⟨"SAT-DC-EL-001", "ELECTRICAL SINGLE LINE DIAGRAM",
        "MAIN POWER DISTRIBUTION", "IEC 60617 / IEEE C2"⟩),
    ("SAT-DC-NT-001_Network-Topology.dxf",
      ⟨"SAT-DC-NT-001", "NETWORK TOPOLOGY DIAGRAM", "LOGICAL & PHYSICAL",
        "TIA-942 / ISO/IEC 24764"⟩),
    ("SAT-DC-CL-001_Cooling-System.dxf",
      ⟨"SAT-DC-CL-001", "HVAC & COOLING SYSTEM DIAGRAM",
        "CHILLED WATER DISTRIBUTION", "ASHRAE TC 9.9"⟩),
    ("SAT-DC-FS-001_Fire-Suppression.dxf",
      ⟨"SAT-DC-FS-001", "FIRE DETECTION & SUPPRESSION", "ZONE MAP & SCHEMATIC",
        "NFPA 75 / NFPA 2001"⟩) ]

end Dxf

namespace Pdf

/-- Dash pattern state of the reportlab canvas: solid (the default, and the
state restored by a no-argument `setDash()`), or the two-number pattern set by
`setDash(a, b)`. -/
inductive Dash where
  | solid
  | pat (a b : ℝ)

/-- Horizontal anchor of a reportlab text call: `drawString` (left),
`drawCentredString` (centred), `drawRightString` (right). -/
inductive TextAnchor where
  | left
  | centred
  | right
  deriving DecidableEq, Repr

/-- A shape emitted onto the PDF page.  Each stroked or filled shape carries
the graphics state (colours, line width, dash pattern) in force when it was
drawn, because reportlab applies the current state at draw time; text carries
the current font and fill colour. -/
inductive PdfShape where
  | rect (x y w h : ℝ) (fill stroke : Bool) (fillColor strokeColor : String)
      (lineWidth : ℝ) (dash : Dash)
  | line (x1 y1 x2 y2 : ℝ) (strokeColor : String) (lineWidth : ℝ) (dash : Dash)
  | circle (cx cy r : ℝ) (fill stroke : Bool) (fillColor strokeColor : String)
      (lineWidth : ℝ) (dash : Dash)
  | path (pts : List (ℝ × ℝ)) (fill stroke : Bool)
      (fillColor strokeColor : String) (lineWidth : ℝ) (dash : Dash)
  | text (x y : ℝ) (anchor : TextAnchor) (content : String)
      (fontName : String) (fontSize : ℝ) (fillColor : String)

/-- The reportlab canvas: the ordered shapes emitted so far plus the mutable
graphics state shared by all drawing calls. -/
structure Canvas where
  shapes : List PdfShape
  strokeColor : String
  fillColor : String
  lineWidth : ℝ
  dash : Dash
  fontName : String
  fontSize : ℝ

noncomputable section

/-- One reportlab millimetre in points: `mm = 72 / 25.4`. -/
def mmUnit : ℝ := 72 / 25.4

/-- `PAGE_W`: the width of a landscape A4 page, 297 mm in points
(`generate_pdf.py` line 30). -/
def PAGE_W : ℝ := 297 * mmUnit

/-- `PAGE_H`: the height of a landscape A4 page, 210 mm in points
(`generate_pdf.py` line 30). -/
def PAGE_H : ℝ := 210 * mmUnit

/-- `MARGIN = 10 * mm` (`generate_pdf.py` line 31). -/
def MARGIN : ℝ := 10 * mmUnit

/-- `BORDER = MARGIN + 2 * mm` (`generate_pdf.py` line 32). -/
def BORDER : ℝ := MARGIN + 2 * mmUnit

/-- Colour constants of `generate_pdf.py` lines 34-61, represented by their
construction literal. -/
def black : String := "black"

def white : String := "white"

def C_BORDER : String := "#1a1a2e"

def C_TITLE_BG : String := "#16213e"

def C_TITLE_TEXT : String := "#e2e2e2"

def C_WALL : String := "#2c3e50"

def C_WALL_FILL : String := "#ecf0f1"

def C_RACK : String := "#2c3e50"

def C_RACK_FILL : String := "#34495e"

def C_DASHED : String := "#7f8c8d"

/-- `c.setStrokeColor(col)`. -/
def setStrokeColor (c : Canvas) (col : String) : Canvas :=
  { c with strokeColor := col }

/-- `c.setFillColor(col)`. -/
def setFillColor (c : Canvas) (col : String) : Canvas :=
  { c with fillColor := col }

/-- `c.setLineWidth(w)`. -/
def setLineWidth (c : Canvas) (w : ℝ) : Canvas :=
  { c with lineWidth := w }

/-- `c.setDash(a, b)`. -/
def setDash (c : Canvas) (a b : ℝ) : Canvas :=
  { c with dash := .pat a b }

/-- `c.setDash()` with no arguments: restore the solid pattern. -/
def setDashSolid (c : Canvas) : Canvas :=
  { c with dash := .solid }

/-- `c.setFont(name, size)`. -/
def setFont (c : Canvas) (name : String) (size : ℝ) : Canvas :=
  { c with fontName := name, fontSize := size }

/-- `c.rect(x, y, w, h, fill, stroke)`; the Python defaults are `fill=0,
stroke=1`. -/
def rectOp (c : Canvas) (x y w h : ℝ) (fill stroke : Bool) : Canvas :=
  { c with shapes := c.shapes ++
      [.rect x y w h fill stroke c.fillColor c.strokeColor c.lineWidth
        c.dash] }

/-- `c.line(x1, y1, x2, y2)`. -/
def lineOp (c : Canvas) (x1 y1 x2 y2 : ℝ) : Canvas :=
  { c with shapes := c.shapes ++
      [.line x1 y1 x2 y2 c.strokeColor c.lineWidth c.dash] }

/-- `c.circle(cx, cy, r, fill, stroke)`. -/
def circleOp (c : Canvas) (cx cy r : ℝ) (fill stroke : Bool) : Canvas :=
  { c with shapes := c.shapes ++
      [.circle cx cy r fill stroke c.fillColor c.strokeColor c.lineWidth
        c.dash] }

/-- A `beginPath`/`moveTo`/`lineTo`.../`close` path drawn with
`c.drawPath(p, fill, stroke)`. -/
def drawPathOp (c : Canvas) (pts : List (ℝ × ℝ)) (fill stroke : Bool) :
    Canvas :=
  { c with shapes := c.shapes ++
      [.path pts fill stroke c.fillColor c.strokeColor c.lineWidth c.dash] }

/-- `c.drawString(x, y, s)`. -/
def drawString (c : Canvas) (x y : ℝ) (s : String) : Canvas :=
  { c with shapes := c.shapes ++
      [.text x y .left s c.fontName c.fontSize c.fillColor] }

/-- `c.drawCentredString(x, y, s)`. -/
def drawCentredString (c : Canvas) (x y : ℝ) (s : String) : Canvas :=
  { c with shapes := c.shapes ++
      [.text x y .centred s c.fontName c.fontSize c.fillColor] }

/-- `c.drawRightString(x, y, s)`. -/
def drawRightString (c : Canvas) (x y : ℝ) (s : String) : Canvas :=
  { c with shapes := c.shapes ++
      [.text x y .right s c.fontName c.fontSize c.fillColor] }

/-- `draw_border(c)` of `generate_pdf.py` lines 72-78: the outer rectangle at
inset `MARGIN` is stroked with line width 0.5, then the inner rectangle at
inset `BORDER` with line width 1.5. -/
def draw_border (c : Canvas) : Canvas :=
  let c := setStrokeColor c C_BORDER
  let c := setLineWidth c 0.5
  let c := rectOp c MARGIN MARGIN (PAGE_W - 2 * MARGIN) (PAGE_H - 2 * MARGIN)
    false true
  let c := setLineWidth c 1.5
  rectOp c BORDER BORDER (PAGE_W - 2 * BORDER) (PAGE_H - 2 * BORDER)
    false true

/-- `draw_title_block(c, dwg_no, title, subtitle, standard, rev, scale)` of
`generate_pdf.py` lines 81-143 (the Python defaults are `rev="A",
scale="NTS"`), emitted call by call in source order. -/
def draw_title_block (c : Canvas) (dwg_no title subtitle standard rev scale :
    String) : Canvas :=
  let tb_x := BORDER
  let tb_y := BORDER
  let tb_w := PAGE_W - 2 * BORDER
  let c := setFillColor c C_TITLE_BG
  let c := rectOp c tb_x tb_y tb_w (36 * mmUnit) true false
  let c := setStrokeColor c C_TITLE_TEXT
  let c := setLineWidth c 0.5
  let c := lineOp c tb_x (tb_y + 12 * mmUnit) (tb_x + tb_w)
    (tb_y + 12 * mmUnit)
  let c := lineOp c tb_x (tb_y + 24 * mmUnit) (tb_x + tb_w)
    (tb_y + 24 * mmUnit)
  let c := lineOp c (tb_x + 80 * mmUnit) tb_y (tb_x + 80 * mmUnit)
    (tb_y + 24 * mmUnit)
  let c := lineOp c (tb_x + 160 * mmUnit) tb_y (tb_x + 160 * mmUnit)
    (tb_y + 24 * mmUnit)
  let c := lineOp c (tb_x + 200 * mmUnit) tb_y (tb_x + 200 * mmUnit)
    (tb_y + 12 * mmUnit)
  let c := setFillColor c white
  let c := setFont c "Helvetica-Bold" 14
  let c := drawString c (tb_x + 6 * mmUnit) (tb_y + 27 * mmUnit)
    ("SATSIBER DATA CENTER — " ++ title)
  let c := setFont c "Helvetica" 8
  let c := drawRightString c (tb_x + tb_w - 4 * mmUnit) (tb_y + 27 * mmUnit)
    "UPTIME TIER III DESIGN"
  let c := setFont c "Helvetica" 7
  let c := setFillColor c "#aaaaaa"
  let c := drawString c (tb_x + 4 * mmUnit) (tb_y + 19 * mmUnit) "PROJECT"
  let c := drawString c (tb_x + 84 * mmUnit) (tb_y + 19 * mmUnit) "SUBTITLE"
  let c := drawString c (tb_x + 164 * mmUnit) (tb_y + 19 * mmUnit)
    "CLASSIFICATION"
  let c := setFillColor c white
  let c := setFont c "Helvetica-Bold" 9
  let c := drawString c (tb_x + 4 * mmUnit) (tb_y + 14 * mmUnit)
    "Satsiber New Data Center"
  let c := drawString c (tb_x + 84 * mmUnit) (tb_y + 14 * mmUnit) subtitle
  let c := drawString c (tb_x + 164 * mmUnit) (tb_y + 14 * mmUnit)
    "CONFIDENTIAL"
  let c := setFont c "Helvetica" 7
  let c := setFillColor c "#aaaaaa"
  let c := drawString c (tb_x + 4 * mmUnit) (tb_y + 7 * mmUnit) "DWG NO."
  let c := drawString c (tb_x + 84 * mmUnit) (tb_y + 7 * mmUnit) "STANDARD"
  let c := drawString c (tb_x + 164 * mmUnit) (tb_y + 7 * mmUnit) "SCALE"
  let c := drawString c (tb_x + 204 * mmUnit) (tb_y + 7 * mmUnit) "REV"
  let c := setFillColor c white
  let c := setFont c "Helvetica-Bold" 10
  let c := drawString c (tb_x + 4 * mmUnit) (tb_y + 2 * mmUnit) dwg_no
  let c := setFont c "Helvetica" 9
  let c := drawString c (tb_x + 84 * mmUnit) (tb_y + 2 * mmUnit) standard
  let c := drawString c (tb_x + 164 * mmUnit) (tb_y + 2 * mmUnit) scale
  let c := drawString c (tb_x + 204 * mmUnit) (tb_y + 2 * mmUnit) rev
  let c := setFont c "Helvetica" 7
  let c := setFillColor c "#aaaaaa"
  let c := drawString c (tb_x + 230 * mmUnit) (tb_y + 7 * mmUnit) "DATE"
  let c := setFillColor c white
  let c := setFont c "Helvetica" 9
  drawString c (tb_x + 230 * mmUnit) (tb_y + 2 * mmUnit) "2026-02-27"

/-- `draw_room(c, x, y, w, h, label, ref_id, fill, text_color)` of
`generate_pdf.py` lines 162-174; `ref_id` is optional (the Python default is
`None`) and no input validation is performed. -/
def draw_room (c : Canvas) (x y w h : ℝ) (label : String)
    (ref_id : Option String) (fill text_color : String) : Canvas :=
  let c := setFillColor c fill
  let c := setStrokeColor c C_WALL
  let c := setLineWidth c 1.2
  let c := rectOp c x y w h true true
  let c := setFillColor c text_color
  let c := setFont c "Helvetica-Bold" 7
  let c := drawCentredString c (x + w / 2) (y + h / 2 + 2) label
  match ref_id with
  | none => c
  | some r =>
      let c := setFont c "Helvetica" 5.5
      let c := setFillColor c "#666666"
      drawCentredString c (x + w / 2) (y + h / 2 - 6) r

/-- `draw_rack(c, x, y, w, h, label, fill)` of `generate_pdf.py` lines
177-185. -/
def draw_rack (c : Canvas) (x y w h : ℝ) (label : String) (fill : String) :
    Canvas :=
  let c := setFillColor c fill
  let c := setStrokeColor c C_RACK
  let c := setLineWidth c 0.8
  let c := rectOp c x y w h true true
  let c := setFillColor c white
  let c := setFont c "Helvetica-Bold" 4.5
  drawCentredString c (x + w / 2) (y + h / 2 - 1.5) label

/-- `math.atan2(y, x)`, embedded as the argument of the complex number
`x + y*i` (equal to `atan2` on every input, including `atan2(0, 0) = 0`). -/
def atan2 (y x : ℝ) : ℝ := Complex.arg ⟨x, y⟩

/-- `draw_arrow(c, x1, y1, x2, y2, color, width)` of `generate_pdf.py` lines
188-202: the segment followed by the filled head path
`[(x2, y2), (x2 - 3mm*cos(angle-0.3), y2 - 3mm*sin(angle-0.3)),
(x2 - 3mm*cos(angle+0.3), y2 - 3mm*sin(angle+0.3))]` with
`angle = atan2(y2-y1, x2-x1)`, drawn with `fill=1, stroke=0`. -/
def draw_arrow (c : Canvas) (x1 y1 x2 y2 : ℝ) (color : String) (width : ℝ) :
    Canvas :=
  let c := setStrokeColor c color
  let c := setFillColor c color
  let c := setLineWidth c width
  let c := lineOp c x1 y1 x2 y2
  let angle := atan2 (y2 - y1) (x2 - x1)
  let alen := 3 * mmUnit
  drawPathOp c
    [ (x2, y2),
      (x2 - alen * Real.cos (angle - 0.3), y2 - alen * Real.sin (angle - 0.3)),
      (x2 - alen * Real.cos (angle + 0.3),
        y2 - alen * Real.sin (angle + 0.3)) ]
    true false

/-- `draw_dashed_rect(c, x, y, w, h, color, width)` of `generate_pdf.py`
lines 205-211: sets the dash pattern (3, 2), strokes the rectangle, then
resets the canvas to the solid pattern. -/
def draw_dashed_rect (c : Canvas) (x y w h : ℝ) (color : String) (width : ℝ) :
    Canvas :=
  let c := setStrokeColor c color
  let c := setLineWidth c width
  let c := setDash c 3 2
  let c := rectOp c x y w h false true
  setDashSolid c

/-- `draw_legend_item(c, x, y, color, label, shape)` of `generate_pdf.py`
lines 214-238 (the Python default is `shape="rect"`): one swatch (rect, line,
dashed line or circle) followed by the label text; the `"dash"` branch sets
the pattern (2, 1.5) and resets to solid. -/
def draw_legend_item (c : Canvas) (x y : ℝ) (color label : String)
    (shape : String) : Canvas :=
  let c :=
    if shape = "rect" then
      let c := setFillColor c color
      let c := setStrokeColor c black
      let c := setLineWidth c 0.4
      rectOp c x y (4 * mmUnit) (3 * mmUnit) true true
    else if shape = "line" then
      let c := setStrokeColor c color
      let c := setLineWidth c 1.5
      lineOp c x (y + 1.5 * mmUnit) (x + 4 * mmUnit) (y + 1.5 * mmUnit)
    else if shape = "dash" then
      let c := setStrokeColor c color
      let c := setLineWidth c 1
      let c := setDash c 2 1.5
      let c := lineOp c x (y + 1.5 * mmUnit) (x + 4 * mmUnit)
        (y + 1.5 * mmUnit)
      setDashSolid c
    else if shape = "circle" then
      let c := setFillColor c color
      let c := setStrokeColor c black
      let c := setLineWidth c 0.4
      circleOp c (x + 2 * mmUnit) (y + 1.5 * mmUnit) (1.5 * mmUnit) true true
    else c
  let c := setFillColor c black
  let c := setFont c "Helvetica" 5.5
  drawString c (x + 6 * mmUnit) (y + 0.5 * mmUnit) label

/-- `draw_north_arrow(c, x, y)` of `generate_pdf.py` lines 241-254. -/
def draw_north_arrow (c : Canvas) (x y : ℝ) : Canvas :=
  let c := setStrokeColor c black
  let c := setFillColor c black
  let c := setLineWidth c 0.8
  let c := drawPathOp c
    [ (x, y), (x - 2 * mmUnit, y - 6 * mmUnit), (x, y - 4.5 * mmUnit),
      (x + 2 * mmUnit, y - 6 * mmUnit) ] true true
  let c := setFont c "Helvetica-Bold" 7
  drawCentredString c x (y + 2 * mmUnit) "N"

/-- A fresh reportlab canvas: no shapes, black colours, line width 1, solid
dash pattern, default font. -/
def canvas0 : Canvas := ⟨[], black, black, 1, .solid, "Helvetica", 12⟩

/-- Arguments of one `draw_title_block` call: drawing number, title, subtitle
and standard (all five composer calls leave `rev="A"`, `scale="NTS"` at their
defaults). -/
structure TitleArgs where
  dwg_no : String
  title : String
  subtitle : String
  standard : String
  deriving DecidableEq, Repr

/-- The five PDF sheets: output filename (from the `drawings` table of `main`,
`generate_pdf.py` lines 1391-1397) paired with the arguments that sheet's
composer passes to `draw_title_block` (lines 262-263, 530-531, 758-759,
955-956, 1192-1193). -/
def pdf_sheets : List (String × TitleArgs) :=
  [ ("SAT-DC-FP-001_Floor-Plan.pdf",
      ⟨"SAT-DC-FP-001", "DATA CENTER FLOOR PLAN",
        "16-Rack Layout — Hot/Cold Aisle", "ISO/IEC 22237 / TIA-942"⟩),
    ("SAT-DC-EL-001_Electrical-SLD.pdf",
      ⟨"SAT-DC-EL-001", "ELECTRICAL SINGLE LINE DIAGRAM",
        "Dual Feed — N+1 Redundancy", "IEC 60617 / IEEE C2"⟩),
    ("SAT-DC-NT-001_Network-Topology.pdf",
      ⟨"SAT-DC-NT-001", "NETWORK TOPOLOGY DIAGRAM",
        "Redundant Core — Dual ISP", "TIA-942 / ISO/IEC 24764"⟩),
    ("SAT-DC-CL-001_Cooling-System.pdf",
      ⟨"SAT-DC-CL-001", "COOLING SYSTEM DIAGRAM",
        "Chilled Water — N+1 CRAHs", "ASHRAE TC 9.9"⟩),
    ("SAT-DC-FS-001_Fire-Suppression.pdf",
      ⟨"SAT-DC-FS-001", "FIRE SUPPRESSION SYSTEM",
        "VESDA / Clean Agent / Pre-Action", "NFPA 75 / NFPA 2001"⟩) ]

/-- Euclidean distance between two points of the page. -/
def ptDist (p q : ℝ × ℝ) : ℝ :=
  Real.sqrt ((p.1 - q.1) ^ 2 + (p.2 - q.2) ^ 2)

end

end Pdf

/-- The ambient environment of one batch run, reduced to the piece a run could
conceivably depend on: the wall-clock instant of the run.  Neither
`generate_pdf.py` nor `generate_dxf.py` reads a clock (the title-block date is
the literal string `"2026-02-27"`), so the embedded batch ignores it. -/
structure Env where
  wall_clock : String

noncomputable section

/-- One run of the PDF batch (`generate_pdf.py` `main`, lines 1387-1409),
modelled at the granularity decided by the source: the ordered (filename,
sheet frame content) pairs, where the sheet frame content is the title block
the composer draws on a fresh canvas.  The run environment is ignored because
the source consults no ambient state. -/
def pdfBatch (_e : Env) : List (String × List Pdf.PdfShape) :=
  Pdf.pdf_sheets.map fun p =>
    (p.1, (Pdf.draw_title_block Pdf.canvas0 p.2.dwg_no p.2.title p.2.subtitle
      p.2.standard "A" "NTS").shapes)

end

/-- One run of the DXF batch (`generate_dxf.py` lines 998-1017): the ordered
(filename, title block entities) pairs, the title block being added at
`x_off=600, y_off=10` on a fresh modelspace.  The run environment is ignored
because the source consults no ambient state. -/
def dxfBatch (_e : Env) : List (String × List Dxf.DxfEntity) :=
  Dxf.dxf_sheets.map fun p =>
    (p.1, Dxf.add_title_block [] 600 10 p.2.dwg_no p.2.title_line1
      p.2.title_line2 p.2.standard)

open Dxf Pdf in
/-- Helper: one reportlab millimetre is a positive number of points. -/
theorem mmUnit_pos : (0 : ℝ) < Pdf.mmUnit := by
  unfold Pdf.mmUnit
  norm_num

/-- Helper: shifting an angle by pi negates its cosine, stated for the
`θ + π - d` form used by the arrowhead. -/
theorem cos_pi_shift_sub (θ d : ℝ) :
    Real.cos (θ + Real.pi - d) = -Real.cos (θ - d) := by
  rw [show θ + Real.pi - d = (θ - d) + Real.pi by ring, Real.cos_add_pi]

/-- Helper: shifting an angle by pi negates its sine, `θ + π - d` form. -/
theorem sin_pi_shift_sub (θ d : ℝ) :
    Real.sin (θ + Real.pi - d) = -Real.sin (θ - d) := by
  rw [show θ + Real.pi - d = (θ - d) + Real.pi by ring, Real.sin_add_pi]

/-- Helper: shifting an angle by pi negates its cosine, `θ + π + d` form. -/
theorem cos_pi_shift_add (θ d : ℝ) :
    Real.cos (θ + Real.pi + d) = -Real.cos (θ + d) := by
  rw [show θ + Real.pi + d = (θ + d) + Real.pi by ring, Real.cos_add_pi]

/-- Helper: shifting an angle by pi negates its sine, `θ + π + d` form. -/
theorem sin_pi_shift_add (θ d : ℝ) :
    Real.sin (θ + Real.pi + d) = -Real.sin (θ + d) := by
  rw [show θ + Real.pi + d = (θ + d) + Real.pi by ring, Real.sin_add_pi]

/-- Helper: a point displaced from `(x, y)` by `r ≥ 0` along direction `a` is
at distance `r` from `(x, y)`. -/
theorem ptDist_polar (x y r a : ℝ) (h : 0 ≤ r) :
    Pdf.ptDist (x + r * Real.cos a, y + r * Real.sin a) (x, y) = r := by
  unfold Pdf.ptDist
  have key : (x + r * Real.cos a - x) ^ 2 + (y + r * Real.sin a - y) ^ 2
      = r ^ 2 := by
    have hc := Real.cos_sq_add_sin_sq a
    calc (x + r * Real.cos a - x) ^ 2 + (y + r * Real.sin a - y) ^ 2
        = r ^ 2 * (Real.cos a ^ 2 + Real.sin a ^ 2) := by ring
      _ = r ^ 2 := by rw [hc, mul_one]
  rw [key, Real.sqrt_sq h]

/-- C2 counterexample: called with a negative width, the room-box helpers of
both renderers emit their full shape sequence and raise nothing, instead of
failing with a validation error and emitting no shapes. -/
theorem invalid_geometry_still_emits :
    (Dxf.add_room_box [] 0 0 (-5) 10 "ROOM" "R-01" Dxf.WHITE).length = 3
    ∧ (Pdf.draw_room Pdf.canvas0 0 0 (-1) 0 "X" none Pdf.C_WALL_FILL
        Pdf.C_WALL).shapes.length = 2 := by
  constructor
  · rfl
  · rfl

/-- C2 amended: the shape helpers perform no input validation.  For every
input, including non-positive widths, heights and radii, they append their
fixed number of shapes (and, being total functions of their arguments, raise
no error). -/
theorem shape_helpers_no_validation (msp : List Dxf.DxfEntity)
    (x y w h cx cy r : ℚ) (label ref tag : String) (color : ℤ)
    (c : Pdf.Canvas) (px py pw ph : ℝ) (plabel : String) (rid : Option String)
    (fl tc : String) :
    (Dxf.add_room_box msp x y w h label ref color).length = msp.length + 3
    ∧ (Dxf.add_generator_symbol msp cx cy r label tag color).length =
        msp.length + 4
    ∧ (Pdf.draw_room c px py pw ph plabel rid fl tc).shapes.length =
        c.shapes.length + rid.elim 2 (fun _ => 3) := by
  refine ⟨?_, ?_, ?_⟩
  · simp [Dxf.add_room_box]
  · simp [Dxf.add_generator_symbol]
  · cases rid <;>
      simp [Pdf.draw_room, Pdf.setFillColor, Pdf.setStrokeColor,
        Pdf.setLineWidth, Pdf.rectOp, Pdf.setFont, Pdf.drawCentredString]

/-- C7 counterexample: a vertical bus bar emits only the thick polyline; the
label text is dropped, contradicting "for every orientation ... plus a label
text". -/
theorem bus_bar_vertical_omits_label :
    Dxf.add_bus_bar [] 0 0 100 "MSB-A" Dxf.WHITE false =
      [.lwpolyline [(0, 0), (0, 100)] Dxf.WHITE (some 70) none] := by
  simp [Dxf.add_bus_bar]

/-- C7 amended: a horizontal bus bar emits a single lineweight-70 polyline
plus a label centered along the bar (at `x + length/2`, 8 below it); a
vertical bus bar emits only the lineweight-70 polyline and ignores the label.
Lineweight 70 is heavier than every lineweight used for ordinary wiring lines
in the source (13, 18, 25, 35). -/
theorem bus_bar_spec (msp : List Dxf.DxfEntity) (x y len : ℚ)
    (label : String) (color : ℤ) :
    Dxf.add_bus_bar msp x y len label color true =
      msp ++
        [ .lwpolyline [(x, y), (x + len, y)] color (some 70) none,
          .text label 4 color none (x + len / 2, y - 8) .middleCenter ]
    ∧ Dxf.add_bus_bar msp x y len label color false =
        msp ++ [ .lwpolyline [(x, y), (x, y + len)] color (some 70) none ]
    ∧ ∀ wlw ∈ Dxf.wiring_lineweights, wlw < 70 := by
  refine ⟨?_, ?_, ?_⟩
  · simp [Dxf.add_bus_bar]
  · simp [Dxf.add_bus_bar]
  · decide

/-- C7 witness: the amended theorem applied at a concrete input; wiring
lineweight 35 is below the bus-bar lineweight 70. -/
theorem bus_bar_spec_witness : (35 : ℤ) < 70 :=
  (bus_bar_spec [] 0 0 1 "L" 7).2.2 35 (by decide)

/-- Helper: a flatMap whose function always yields two elements doubles the
length. -/
theorem length_flatMap_two {α β : Type} (f : α → List β)
    (hf : ∀ a, (f a).length = 2) :
    ∀ l : List α, (l.flatMap f).length = 2 * l.length := by
  intro l
  induction l with
  | nil => rfl
  | cons hd tl ih =>
      simp only [List.flatMap_cons, List.length_append, ih, hf hd,
        List.length_cons]
      omega

/-- C6: the floor-plan legend loop emits exactly one swatch+label pair per
item (none for an empty list), at vertical positions dropping by the constant
spacing 12 per entry, strictly decreasing, with the 6-high swatch strictly
clear of the next entry; the PDF single-entry helper emits exactly one swatch
plus one label for each of its four swatch kinds. -/
theorem legend_construction_spec (lx ly : ℚ) (items : List (ℤ × String))
    (c : Pdf.Canvas) (x y : ℝ) (col lbl : String) :
    (Dxf.floor_plan_legend lx ly items).length = 2 * items.length
    ∧ Dxf.floor_plan_legend lx ly [] = []
    ∧ (∀ i : ℕ, Dxf.legendY ly (i + 1) = Dxf.legendY ly i - 12)
    ∧ (∀ i j : ℕ, i < j → Dxf.legendY ly j < Dxf.legendY ly i)
    ∧ (∀ i : ℕ, Dxf.legendY ly (i + 1) + 6 < Dxf.legendY ly i)
    ∧ (Pdf.draw_legend_item c x y col lbl "rect").shapes.length =
        c.shapes.length + 2
    ∧ (Pdf.draw_legend_item c x y col lbl "line").shapes.length =
        c.shapes.length + 2
    ∧ (Pdf.draw_legend_item c x y col lbl "dash").shapes.length =
        c.shapes.length + 2
    ∧ (Pdf.draw_legend_item c x y col lbl "circle").shapes.length =
        c.shapes.length + 2 := by
  refine ⟨?_, rfl, ?_, ?_, ?_, ?_, ?_, ?_, ?_⟩
  · unfold Dxf.floor_plan_legend
    rw [length_flatMap_two]
    · rw [List.enum_length]
    · intro a
      rfl
  · intro i
    unfold Dxf.legendY
    push_cast
    ring
  · intro i j hij
    unfold Dxf.legendY
    have : (i : ℚ) < j := by exact_mod_cast hij
    linarith
  · intro i
    unfold Dxf.legendY
    push_cast
    linarith
  all_goals
    simp [Pdf.draw_legend_item, Pdf.setFillColor, Pdf.setStrokeColor,
      Pdf.setLineWidth, Pdf.rectOp, Pdf.lineOp, Pdf.circleOp, Pdf.setDash,
      Pdf.setDashSolid, Pdf.setFont, Pdf.drawString]

/-- C6 witness: the legend theorem applied at a concrete input: with two
items the second entry sits strictly below the first. -/
theorem legend_construction_spec_witness :
    Dxf.legendY 0 1 < Dxf.legendY 0 0 :=
  (legend_construction_spec 0 0 [] Pdf.canvas0 0 0 "c" "l").2.2.2.1 0 1
    (by decide)

/-- C4 counterexample: the PDF rack symbol helper does more than append
shapes — it leaves the canvas graphics state changed (here the current font),
so "a call's only effect is appending shapes to the current sheet" fails for
the PDF renderer. -/
theorem rack_mutates_graphics_state :
    (Pdf.draw_rack Pdf.canvas0 10 10 20 30 "R01" Pdf.C_RACK_FILL).fontName ≠
      Pdf.canvas0.fontName := by
  simp [Pdf.draw_rack, Pdf.canvas0, Pdf.setFillColor, Pdf.setStrokeColor,
    Pdf.setLineWidth, Pdf.rectOp, Pdf.setFont, Pdf.drawCentredString]

/-- C4 amended: every DXF symbol function is append-only and deterministic —
what it appends is a function of its parameters alone; the PDF rack helper
appends shapes determined by its parameters and the ambient dash pattern, but
additionally mutates the canvas graphics state (colours, line width, font),
so on the PDF side purity holds for the emitted shapes, not for the whole
canvas. -/
theorem symbol_functions_append_only (msp : List Dxf.DxfEntity)
    (cx cy r x y w h len : ℚ) (label tag ref : String) (color : ℤ)
    (dashed horizontal : Bool) (c : Pdf.Canvas) (px py pw ph : ℝ)
    (plabel pfill : String) :
    Dxf.add_generator_symbol msp cx cy r label tag color =
      msp ++ Dxf.add_generator_symbol [] cx cy r label tag color
    ∧ Dxf.add_transformer_symbol msp cx cy r label color =
        msp ++ Dxf.add_transformer_symbol [] cx cy r label color
    ∧ Dxf.add_cb_symbol msp x y label color =
        msp ++ Dxf.add_cb_symbol [] x y label color
    ∧ Dxf.add_equipment msp x y w h label tag color dashed =
        msp ++ Dxf.add_equipment [] x y w h label tag color dashed
    ∧ Dxf.add_bus_bar msp x y len label color horizontal =
        msp ++ Dxf.add_bus_bar [] x y len label color horizontal
    ∧ Dxf.add_room_box msp x y w h label ref color =
        msp ++ Dxf.add_room_box [] x y w h label ref color
    ∧ (Pdf.draw_rack c px py pw ph plabel pfill).shapes =
        c.shapes ++
          [ .rect px py pw ph true true pfill Pdf.C_RACK 0.8 c.dash,
            .text (px + pw / 2) (py + ph / 2 - 1.5) .centred plabel
              "Helvetica-Bold" 4.5 Pdf.white ] := by
  refine ⟨rfl, rfl, rfl, rfl, ?_, rfl, ?_⟩
  · cases horizontal <;> simp [Dxf.add_bus_bar]
  · simp [Pdf.draw_rack, Pdf.setFillColor, Pdf.setStrokeColor,
      Pdf.setLineWidth, Pdf.rectOp, Pdf.setFont, Pdf.drawCentredString]

/-- C5 counterexample: in the PDF renderer the outer border rectangle (the
one at the smaller inset `MARGIN`) is stroked with line width 0.5 and the
inner one (inset `BORDER`) with 1.5, so the outer rectangle carries the
lighter weight, not the heavier one. -/
theorem pdf_border_outer_lighter :
    (Pdf.draw_border Pdf.canvas0).shapes =
      [ .rect Pdf.MARGIN Pdf.MARGIN (Pdf.PAGE_W - 2 * Pdf.MARGIN)
          (Pdf.PAGE_H - 2 * Pdf.MARGIN) false true Pdf.black Pdf.C_BORDER 0.5
          .solid,
        .rect Pdf.BORDER Pdf.BORDER (Pdf.PAGE_W - 2 * Pdf.BORDER)
          (Pdf.PAGE_H - 2 * Pdf.BORDER) false true Pdf.black Pdf.C_BORDER 1.5
          .solid ]
    ∧ Pdf.MARGIN < Pdf.BORDER ∧ ¬ ((1.5 : ℝ) ≤ 0.5) := by
  refine ⟨?_, ?_, by norm_num⟩
  · simp [Pdf.draw_border, Pdf.canvas0, Pdf.setStrokeColor, Pdf.setLineWidth,
      Pdf.rectOp]
  · unfold Pdf.BORDER
    linarith [mmUnit_pos]

/-- C5 amended: both border helpers emit exactly two nested rectangles at
fixed insets.  In the DXF renderer the outer frame has the heavier lineweight
(70 against 18); in the PDF renderer it is the inner rectangle that has the
heavier line width (1.5 against the outer 0.5). -/
theorem border_nested_rects_weights (msp : List Dxf.DxfEntity) (w h : ℚ)
    (c : Pdf.Canvas) :
    Dxf.add_border msp w h =
      msp ++
        [ .lwpolyline [(0, 0), (w, 0), (w, h), (0, h), (0, 0)] Dxf.WHITE
            (some 70) none,
          .lwpolyline [(5, 5), (w - 5, 5), (w - 5, h - 5), (5, h - 5), (5, 5)]
            Dxf.WHITE (some 18) none ]
    ∧ (18 : ℤ) < 70
    ∧ (Pdf.draw_border c).shapes =
        c.shapes ++
          [ .rect Pdf.MARGIN Pdf.MARGIN (Pdf.PAGE_W - 2 * Pdf.MARGIN)
              (Pdf.PAGE_H - 2 * Pdf.MARGIN) false true c.fillColor
              Pdf.C_BORDER 0.5 c.dash,
            .rect Pdf.BORDER Pdf.BORDER (Pdf.PAGE_W - 2 * Pdf.BORDER)
              (Pdf.PAGE_H - 2 * Pdf.BORDER) false true c.fillColor
              Pdf.C_BORDER 1.5 c.dash ]
    ∧ (0.5 : ℝ) < 1.5 ∧ Pdf.MARGIN < Pdf.BORDER := by
  refine ⟨rfl, by norm_num, ?_, by norm_num, ?_⟩
  · simp [Pdf.draw_border, Pdf.setStrokeColor, Pdf.setLineWidth, Pdf.rectOp]
  · unfold Pdf.BORDER
    linarith [mmUnit_pos]

/-- C10: the two dash-setting PDF helpers always return the canvas with the
solid pattern restored (`draw_dashed_rect` unconditionally, the legend helper
in its `"dash"` branch, every other branch leaving the pattern untouched),
and every other embedded helper leaves the dash state exactly as it found it,
so a solid dash state between helper calls is preserved by every helper. -/
theorem dash_state_invariant (c : Pdf.Canvas) (x y w h x2 y2 wd : ℝ)
    (col lbl shape dwg t sub st rv sc fl tc : String)
    (rid : Option String) :
    (Pdf.draw_dashed_rect c x y w h col wd).dash = .solid
    ∧ (Pdf.draw_legend_item c x y col lbl shape).dash =
        (if shape = "dash" then Pdf.Dash.solid else c.dash)
    ∧ (Pdf.draw_border c).dash = c.dash
    ∧ (Pdf.draw_title_block c dwg t sub st rv sc).dash = c.dash
    ∧ (Pdf.draw_room c x y w h lbl rid fl tc).dash = c.dash
    ∧ (Pdf.draw_rack c x y w h lbl fl).dash = c.dash
    ∧ (Pdf.draw_arrow c x y x2 y2 col wd).dash = c.dash
    ∧ (Pdf.draw_north_arrow c x y).dash = c.dash := by
  refine ⟨rfl, ?_, rfl, ?_, ?_, rfl, rfl, rfl⟩
  · simp only [Pdf.draw_legend_item, Pdf.setFillColor, Pdf.setStrokeColor,
      Pdf.setLineWidth, Pdf.setDash, Pdf.setDashSolid, Pdf.rectOp, Pdf.lineOp,
      Pdf.circleOp, Pdf.setFont, Pdf.drawString]
    split_ifs <;> simp_all
  · simp [Pdf.draw_title_block, Pdf.setFillColor, Pdf.setStrokeColor,
      Pdf.setLineWidth, Pdf.setFont, Pdf.lineOp, Pdf.rectOp, Pdf.drawString,
      Pdf.drawRightString]
  · cases rid <;> rfl

/-- C10 witness: the invariant theorem applied at a concrete canvas in the
solid state: the dashed-rectangle helper returns the solid state. -/
theorem dash_state_invariant_witness :
    (Pdf.draw_dashed_rect Pdf.canvas0 1 2 3 4 "#7f8c8d" 0.6).dash =
      Pdf.Dash.solid :=
  (dash_state_invariant Pdf.canvas0 1 2 3 4 0 0 0.6 "#7f8c8d" "l" "rect" "d"
    "t" "s" "st" "A" "NTS" "f" "tc" none).1

/-- C3: the two batch drivers list exactly five output files with the fixed
drawing-number names and the format extension, and the title block each
sheet's composer draws carries a text whose content is (PDF) or extends (DXF,
as `"DWG NO: " ++ dwg_no`) that sheet's declared drawing number. -/
theorem batch_files_and_title_blocks :
    Pdf.pdf_sheets.map Prod.fst =
      [ "SAT-DC-FP-001_Floor-Plan.pdf", "SAT-DC-EL-001_Electrical-SLD.pdf",
        "SAT-DC-NT-001_Network-Topology.pdf",
        "SAT-DC-CL-001_Cooling-System.pdf",
        "SAT-DC-FS-001_Fire-Suppression.pdf" ]
    ∧ Dxf.dxf_sheets.map Prod.fst =
      [ "SAT-DC-FP-001_Floor-Plan.dxf", "SAT-DC-EL-001_Electrical-SLD.dxf",
        "SAT-DC-NT-001_Network-Topology.dxf",
        "SAT-DC-CL-001_Cooling-System.dxf",
        "SAT-DC-FS-001_Fire-Suppression.dxf" ]
    ∧ Pdf.pdf_sheets.length = 5 ∧ Dxf.dxf_sheets.length = 5
    ∧ (∀ p ∈ Pdf.pdf_sheets,
        Pdf.PdfShape.text (Pdf.BORDER + 4 * Pdf.mmUnit)
          (Pdf.BORDER + 2 * Pdf.mmUnit) .left p.2.dwg_no "Helvetica-Bold" 10
          Pdf.white ∈
          (Pdf.draw_title_block Pdf.canvas0 p.2.dwg_no p.2.title p.2.subtitle
            p.2.standard "A" "NTS").shapes)
    ∧ (∀ q ∈ Dxf.dxf_sheets,
        Dxf.DxfEntity.text ("DWG NO: " ++ q.2.dwg_no) 6 Dxf.WHITE none
          (600 + 210, 10 + 75) .default ∈
          Dxf.add_title_block [] 600 10 q.2.dwg_no q.2.title_line1
            q.2.title_line2 q.2.standard) := by
  refine ⟨rfl, rfl, rfl, rfl, ?_, ?_⟩
  · intro p hp
    simp only [Pdf.pdf_sheets, List.mem_cons, List.not_mem_nil, or_false]
      at hp
    rcases hp with h | h | h | h | h <;> subst h <;>
      simp [Pdf.draw_title_block, Pdf.setFillColor, Pdf.setStrokeColor,
        Pdf.setLineWidth, Pdf.setFont, Pdf.lineOp, Pdf.rectOp, Pdf.drawString,
        Pdf.drawRightString, Pdf.canvas0]
  · intro q hq
    simp only [Dxf.dxf_sheets, List.mem_cons, List.not_mem_nil, or_false]
      at hq
    rcases hq with h | h | h | h | h <;> subst h <;>
      simp [Dxf.add_title_block]

/-- C8: the embedded batch output is a function of nothing but the source
constants — two runs in different ambient environments (different wall-clock
instants) produce identical per-sheet content, and the only date appearing in
a sheet frame is the literal `2026-02-27` of the source. -/
theorem batch_run_environment_independent (e1 e2 : Env) :
    pdfBatch e1 = pdfBatch e2 ∧ dxfBatch e1 = dxfBatch e2
    ∧ (∀ e : Env, ∀ p ∈ pdfBatch e,
        Pdf.PdfShape.text (Pdf.BORDER + 230 * Pdf.mmUnit)
          (Pdf.BORDER + 2 * Pdf.mmUnit) .left "2026-02-27" "Helvetica" 9
          Pdf.white ∈ p.2)
    ∧ (∀ e : Env, ∀ q ∈ dxfBatch e,
        Dxf.DxfEntity.text "DATE: 2026-02-27" 6 Dxf.WHITE none
          (600 + 450, 10 + 75) .default ∈ q.2) := by
  refine ⟨rfl, rfl, ?_, ?_⟩
  · intro e p hp
    simp only [pdfBatch, Pdf.pdf_sheets, List.map_cons, List.map_nil,
      List.mem_cons, List.not_mem_nil, or_false] at hp
    rcases hp with h | h | h | h | h <;> subst h <;>
      simp [Pdf.draw_title_block, Pdf.setFillColor, Pdf.setStrokeColor,
        Pdf.setLineWidth, Pdf.setFont, Pdf.lineOp, Pdf.rectOp, Pdf.drawString,
        Pdf.drawRightString, Pdf.canvas0]
  · intro e q hq
    simp only [dxfBatch, Dxf.dxf_sheets, List.map_cons, List.map_nil,
      List.mem_cons, List.not_mem_nil, or_false] at hq
    rcases hq with h | h | h | h | h <;> subst h <;>
      simp [Dxf.add_title_block]

/-- C1: for every pair of endpoints and style, the arrow helper emits exactly
the segment from p1 to p2 plus one filled head triangle whose apex is exactly
p2 and whose two base vertices are displaced from p2 by the fixed head length
3 mm along the directions `θ + π - 0.3` and `θ + π + 0.3`, where
`θ = atan2(y2-y1, x2-x1)`; each base vertex is at distance exactly `3 * mm`
from p2. -/
theorem arrow_emits_segment_and_head (c : Pdf.Canvas) (x1 y1 x2 y2 : ℝ)
    (color : String) (width : ℝ) :
    (Pdf.draw_arrow c x1 y1 x2 y2 color width).shapes =
      c.shapes ++
        [ .line x1 y1 x2 y2 color width c.dash,
          .path
            [ (x2, y2),
              (x2 + 3 * Pdf.mmUnit *
                  Real.cos (Pdf.atan2 (y2 - y1) (x2 - x1) + Real.pi - 0.3),
                y2 + 3 * Pdf.mmUnit *
                  Real.sin (Pdf.atan2 (y2 - y1) (x2 - x1) + Real.pi - 0.3)),
              (x2 + 3 * Pdf.mmUnit *
                  Real.cos (Pdf.atan2 (y2 - y1) (x2 - x1) + Real.pi + 0.3),
                y2 + 3 * Pdf.mmUnit *
                  Real.sin (Pdf.atan2 (y2 - y1) (x2 - x1) + Real.pi + 0.3)) ]
            true false color color width c.dash ]
    ∧ ∀ a : ℝ,
        Pdf.ptDist (x2 + 3 * Pdf.mmUnit * Real.cos a,
          y2 + 3 * Pdf.mmUnit * Real.sin a) (x2, y2) = 3 * Pdf.mmUnit := by
  constructor
  · have e1 : x2 + 3 * Pdf.mmUnit *
        Real.cos (Pdf.atan2 (y2 - y1) (x2 - x1) + Real.pi - 0.3) =
        x2 - 3 * Pdf.mmUnit *
          Real.cos (Pdf.atan2 (y2 - y1) (x2 - x1) - 0.3) := by
      rw [cos_pi_shift_sub]
      ring
    have e2 : y2 + 3 * Pdf.mmUnit *
        Real.sin (Pdf.atan2 (y2 - y1) (x2 - x1) + Real.pi - 0.3) =
        y2 - 3 * Pdf.mmUnit *
          Real.sin (Pdf.atan2 (y2 - y1) (x2 - x1) - 0.3) := by
      rw [sin_pi_shift_sub]
      ring
    have e3 : x2 + 3 * Pdf.mmUnit *
        Real.cos (Pdf.atan2 (y2 - y1) (x2 - x1) + Real.pi + 0.3) =
        x2 - 3 * Pdf.mmUnit *
          Real.cos (Pdf.atan2 (y2 - y1) (x2 - x1) + 0.3) := by
      rw [cos_pi_shift_add]
      ring
    have e4 : y2 + 3 * Pdf.mmUnit *
        Real.sin (Pdf.atan2 (y2 - y1) (x2 - x1) + Real.pi + 0.3) =
        y2 - 3 * Pdf.mmUnit *
          Real.sin (Pdf.atan2 (y2 - y1) (x2 - x1) + 0.3) := by
      rw [sin_pi_shift_add]
      ring
    rw [e1, e2, e3, e4]
    simp [Pdf.draw_arrow, Pdf.setStrokeColor, Pdf.setFillColor,
      Pdf.setLineWidth, Pdf.lineOp, Pdf.drawPathOp]
  · intro a
    exact ptDist_polar x2 y2 (3 * Pdf.mmUnit) a (by linarith [mmUnit_pos])

/-- C9: with coincident endpoints the arrow helper still emits its two
shapes: `atan2(0, 0) = 0`, so the head is the fixed triangle with apex p2 and
both base vertices displaced in the negative-x direction (their x-coordinate
is strictly below x2); no branch of the helper can fail. -/
theorem arrow_degenerate_coincident (c : Pdf.Canvas) (x y : ℝ)
    (color : String) (width : ℝ) :
    (Pdf.draw_arrow c x y x y color width).shapes =
      c.shapes ++
        [ .line x y x y color width c.dash,
          .path
            [ (x, y),
              (x - 3 * Pdf.mmUnit * Real.cos 0.3,
                y + 3 * Pdf.mmUnit * Real.sin 0.3),
              (x - 3 * Pdf.mmUnit * Real.cos 0.3,
                y - 3 * Pdf.mmUnit * Real.sin 0.3) ]
            true false color color width c.dash ]
    ∧ x - 3 * Pdf.mmUnit * Real.cos 0.3 < x := by
  have hz : Pdf.atan2 (y - y) (x - x) = 0 := by
    unfold Pdf.atan2
    rw [sub_self, sub_self,
      show (⟨0, 0⟩ : ℂ) = 0 from by apply Complex.ext <;> simp,
      Complex.arg_zero]
  constructor
  · have e1 : x - 3 * Pdf.mmUnit * Real.cos ((0 : ℝ) - 0.3) =
        x - 3 * Pdf.mmUnit * Real.cos 0.3 := by
      rw [zero_sub, Real.cos_neg]
    have e2 : y - 3 * Pdf.mmUnit * Real.sin ((0 : ℝ) - 0.3) =
        y + 3 * Pdf.mmUnit * Real.sin 0.3 := by
      rw [zero_sub, Real.sin_neg]
      ring
    have e3 : x - 3 * Pdf.mmUnit * Real.cos ((0 : ℝ) + 0.3) =
        x - 3 * Pdf.mmUnit * Real.cos 0.3 := by
      rw [zero_add]
    have e4 : y - 3 * Pdf.mmUnit * Real.sin ((0 : ℝ) + 0.3) =
        y - 3 * Pdf.mmUnit * Real.sin 0.3 := by
      rw [zero_add]
    simp only [Pdf.draw_arrow, Pdf.setStrokeColor, Pdf.setFillColor,
      Pdf.setLineWidth, Pdf.lineOp, Pdf.drawPathOp, hz]
    rw [e1, e2, e3, e4]
    simp [List.append_assoc]
  · have hcos : 0 < Real.cos 0.3 := by
      refine Real.cos_pos_of_mem_Ioo ⟨?_, ?_⟩
      · linarith [Real.pi_gt_three]
      · linarith [Real.pi_gt_three]
    have hA : (0 : ℝ) < 3 * Pdf.mmUnit := by linarith [mmUnit_pos]
    have := mul_pos hA hcos
    linarith

/-- C3 witness: the batch theorem applied to the first sheet: the floor-plan
title block contains a text whose content is exactly its drawing number. -/
theorem batch_files_and_title_blocks_witness :
    Pdf.PdfShape.text (Pdf.BORDER + 4 * Pdf.mmUnit)
      (Pdf.BORDER + 2 * Pdf.mmUnit) .left "SAT-DC-FP-001" "Helvetica-Bold" 10
      Pdf.white ∈
      (Pdf.draw_title_block Pdf.canvas0 "SAT-DC-FP-001"
        "DATA CENTER FLOOR PLAN" "16-Rack Layout — Hot/Cold Aisle"
        "ISO/IEC 22237 / TIA-942" "A" "NTS").shapes :=
  batch_files_and_title_blocks.2.2.2.2.1
    ("SAT-DC-FP-001_Floor-Plan.pdf",
      ⟨"SAT-DC-FP-001", "DATA CENTER FLOOR PLAN",
        "16-Rack Layout — Hot/Cold Aisle", "ISO/IEC 22237 / TIA-942"⟩)
    (by simp [Pdf.pdf_sheets])

/-- C8 witness: the environment-independence theorem applied at two concrete
run instants: the PDF batch output is identical. -/
theorem batch_run_environment_independent_witness :
    pdfBatch ⟨"2026-03-01T10:00:00"⟩ = pdfBatch ⟨"2026-03-02T18:30:00"⟩ :=
  (batch_run_environment_independent ⟨"2026-03-01T10:00:00"⟩
    ⟨"2026-03-02T18:30:00"⟩).1
